import Mathlib

namespace SimpleEgl

/-! A shallow embedding of the Wayland client `clients/simple-egl.c`:
    the display and window state, the registered protocol handlers, and the
    flow of `main`, with the externally visible protocol and presentation
    calls recorded as a trace of actions. -/

/-- Width of the C uint32_t value space. -/
def WIDTH32 : Nat := 2 ^ 32

/-- The static speed divisor in redraw (`static const int32_t speed_div = 5`). -/
def speed_div : Nat := 5

/-- The integer degree angle redraw computes from an elapsed time:
    `(elapsed / speed_div) % 360`. -/
def angleDeg (elapsed : Nat) : Nat := elapsed / speed_div % 360

/-- uint32_t subtraction `a - b` (wraparound modulo 2^32). -/
def sub32 (a b : Nat) : Nat := (a % WIDTH32 + WIDTH32 - b % WIDTH32) % WIDTH32

/-- The degree angle redraw derives from the callback timestamp and the
    captured start time: `((time - start_time) / speed_div) % 360` with
    uint32_t subtraction. -/
def redrawAngle (start_time time : Nat) : Nat := angleDeg (sub32 time start_time)

/-- Window geometry (`struct window.geometry`): integer width and height. -/
structure Geometry where
  width : Int
  height : Int
deriving DecidableEq, Repr

/-- The bound globals of `struct display`: compositor, shell and input
    handles, each absent (`NULL`) until bound. -/
structure Display where
  compositor : Option Nat := none
  shell : Option Nat := none
  input : Option Nat := none
deriving DecidableEq, Repr

/-- `struct window`, plus the redraw-static `start_time` (0 until captured)
    and the viewport last set by `glViewport` in init_gl. `nativeGeom`
    records the geometry the native drawable was created with. -/
structure Window where
  geometry : Geometry := ⟨0, 0⟩
  fullscreen : Bool := false
  configured : Bool := false
  surface : Option Nat := none
  shell_surface : Option Nat := none
  native : Option Nat := none
  nativeGeom : Option Geometry := none
  egl_surface : Option Nat := none
  callback : Option Nat := none
  viewport : Geometry := ⟨0, 0⟩
  start_time : Nat := 0
deriving DecidableEq, Repr

/-- Externally visible calls the client makes, recorded in order. -/
inductive Action where
  | pong (serial : Nat)
  | setFullscreen
  | setToplevel
  | renderFrame (viewport : Geometry) (angle : Nat)
  | swapBuffers
  | destroyCallback (h : Nat)
  | surfaceFrame (h : Nat)
  | destroyNative
  | destroyShellSurface
  | destroySurface
  | destroyShell
  | destroyCompositor
deriving DecidableEq, Repr

/-- The whole client state: display, window, a fresh-handle counter, the
    number of outstanding (armed, not yet fired) frame requests, and the
    action trace (oldest first). -/
structure ClientState where
  display : Display := {}
  window : Window := {}
  nextHandle : Nat := 0
  outstanding : Nat := 0
  trace : List Action := []
deriving DecidableEq, Repr

/-- handle_ping: `wl_shell_surface_pong(shell_surface, serial)` and nothing
    else. -/
def handle_ping (s : ClientState) (serial : Nat) : ClientState :=
  { s with trace := s.trace ++ [Action.pong serial] }

/-- handle_configure: overwrite the geometry with the server-supplied size
    and set `configured = 1`. -/
def handle_configure (w : Window) (width height : Int) : Window :=
  { w with geometry := ⟨width, height⟩, configured := true }

/-- display_handle_global: bind the compositor, shell or input device by
    interface name; any other interface is ignored. The `handle` argument
    models the fresh proxy returned by `wl_display_bind`. -/
def display_handle_global (d : Display) (interface : String) (handle : Nat) : Display :=
  if interface = "wl_compositor" then { d with compositor := some handle }
  else if interface = "wl_shell" then { d with shell := some handle }
  else if interface = "wl_input_device" then { d with input := some handle }
  else d

/-- Interface names the registry handler binds. -/
def knownInterface (interface : String) : Bool :=
  interface = "wl_compositor" || interface = "wl_shell" || interface = "wl_input_device"

/-- redraw: capture start_time lazily (0 is the unset sentinel), compute the
    rotation angle, render one frame at the current viewport, swap buffers,
    destroy the fired callback handle if one was passed, then request the
    next frame callback (`wl_surface_frame`) and re-arm the listener. -/
def redraw (s : ClientState) (callback : Option Nat) (time : Nat) : ClientState :=
  let w := s.window
  let start_time := if w.start_time = 0 then time else w.start_time
  let angle := redrawAngle start_time time
  let s1 : ClientState :=
    { s with
      window := { w with start_time := start_time },
      trace := s.trace ++ [Action.renderFrame w.viewport angle, Action.swapBuffers] }
  let s2 : ClientState :=
    match callback with
    | some h => { s1 with trace := s1.trace ++ [Action.destroyCallback h] }
    | none => s1
  { s2 with
    window := { s2.window with callback := some s2.nextHandle },
    outstanding := s2.outstanding + 1,
    nextHandle := s2.nextHandle + 1,
    trace := s2.trace ++ [Action.surfaceFrame s2.nextHandle] }

/-- Events the transport can deliver to this client. -/
inductive Event where
  | global (interface : String)
  | configure (width height : Int)
  | frame (time : Nat)
  | ping (serial : Nat)
deriving DecidableEq, Repr

/-- Dispatch one delivered event to the listeners the client registered.
    A frame event fires the outstanding callback, if any: the request stops
    being pending and redraw runs with the fired handle. -/
def dispatch (s : ClientState) (e : Event) : ClientState :=
  match e with
  | Event.global i =>
      if knownInterface i then
        { s with
          display := display_handle_global s.display i s.nextHandle,
          nextHandle := s.nextHandle + 1 }
      else s
  | Event.configure wd ht => { s with window := handle_configure s.window wd ht }
  | Event.ping serial => handle_ping s serial
  | Event.frame t =>
      match s.window.callback with
      | some h =>
          redraw { s with window := { s.window with callback := none },
                          outstanding := s.outstanding - 1 } (some h) t
      | none => s

/-- The fullscreen wait in create_surface:
    `while (!window->configured) wl_display_iterate(...)`, each iteration
    delivering one pending transport event; with no events left the loop
    blocks forever (`none`). Returns the state and the undelivered events. -/
def iterateLoop : ClientState → List Event → Option (ClientState × List Event)
  | s, evs =>
    if s.window.configured then some (s, evs)
    else
      match evs with
      | [] => none
      | e :: rest => iterateLoop (dispatch s e) rest

/-- Native-window and EGL-surface creation at the end of create_surface:
    `wl_egl_window_create(surface, geometry.width, geometry.height)` records
    the geometry the drawable is created with, then the EGL surface is
    created and made current. -/
def finishSurface (s : ClientState) : ClientState :=
  let s1 : ClientState :=
    { s with
      window := { s.window with
                  native := some s.nextHandle,
                  nativeGeom := some s.window.geometry },
      nextHandle := s.nextHandle + 1 }
  { s1 with
    window := { s1.window with egl_surface := some s1.nextHandle },
    nextHandle := s1.nextHandle + 1 }

/-- create_surface: create the surface and shell-surface handles (fatal when
    compositor or shell is unbound: `none`), register the listener; in
    fullscreen mode reset `configured`, request fullscreen presentation and
    block iterating the display until a configure event arrives; in windowed
    mode request toplevel presentation and continue immediately. Finally
    create the native window at the current geometry. -/
def create_surface (s : ClientState) (evs : List Event) :
    Option (ClientState × List Event) :=
  match s.display.compositor, s.display.shell with
  | some _, some _ =>
    let s1 : ClientState :=
      { s with window := { s.window with surface := some s.nextHandle },
               nextHandle := s.nextHandle + 1 }
    let s2 : ClientState :=
      { s1 with window := { s1.window with shell_surface := some s1.nextHandle },
                nextHandle := s1.nextHandle + 1 }
    if s2.window.fullscreen then
      let s3 : ClientState :=
        { s2 with window := { s2.window with configured := false },
                  trace := s2.trace ++ [Action.setFullscreen] }
      match iterateLoop s3 evs with
      | none => none
      | some (s4, rest) => some (finishSurface s4, rest)
    else
      some (finishSurface { s2 with trace := s2.trace ++ [Action.setToplevel] }, evs)
  | _, _ => none

/-- init_gl: `glViewport(0, 0, geometry.width, geometry.height)`. -/
def init_gl (w : Window) : Window := { w with viewport := w.geometry }

/-- destroy_surface: release the native drawable, the shell surface and the
    surface, in that order, then the outstanding frame callback if any. -/
def destroy_surface (s : ClientState) : ClientState :=
  let s1 : ClientState := { s with trace := s.trace ++ [Action.destroyNative] }
  let s2 : ClientState := { s1 with trace := s1.trace ++ [Action.destroyShellSurface] }
  let s3 : ClientState := { s2 with trace := s2.trace ++ [Action.destroySurface] }
  match s3.window.callback with
  | some h => { s3 with trace := s3.trace ++ [Action.destroyCallback h] }
  | none => s3

/-- Teardown at the end of main: destroy_surface, then
    `if (display.shell) wl_shell_destroy(...)`, then
    `if (display.compositor) wl_compositor_destroy(...)`. -/
def main_teardown (s : ClientState) : ClientState :=
  let s1 := destroy_surface s
  let s2 : ClientState :=
    match s1.display.shell with
    | some _ => { s1 with trace := s1.trace ++ [Action.destroyShell] }
    | none => s1
  match s2.display.compositor with
  | some _ => { s2 with trace := s2.trace ++ [Action.destroyCompositor] }
  | none => s2

/-- The argument parsing in main:
    `if (argc >= 2 && strcmp("-f", argv[0])) window.fullscreen = 1;`
    — true exactly when there are at least two arguments and `argv[0]`
    (the program name) differs from "-f". -/
def fullscreenOf (argv : List String) : Bool :=
  decide (2 ≤ argv.length) && decide (argv.headD "" ≠ "-f")

/-- The state at the top of main: zero-initialized display and window,
    geometry 250x250, fullscreen from the command line. -/
def initialState (argv : List String) : ClientState :=
  { window := { geometry := ⟨250, 250⟩, fullscreen := fullscreenOf argv } }

/-- The initial `wl_display_iterate(display, WL_DISPLAY_READABLE)`: the
    pending burst of global announcements is dispatched. -/
def pumpGlobals : ClientState → List Event → ClientState × List Event
  | s, Event.global i :: rest => pumpGlobals (dispatch s (Event.global i)) rest
  | s, evs => (s, evs)

/-- The main event loop: dispatch the delivered events in order. -/
def runEvents : ClientState → List Event → ClientState
  | s, [] => s
  | s, e :: rest => runEvents (dispatch s e) rest

/-- Every state the main loop passes through, the starting one included. -/
def runStates : ClientState → List Event → List ClientState
  | s, [] => [s]
  | s, e :: rest => s :: runStates (dispatch s e) rest

/-- The whole run of main over a finite script of transport events:
    argument parsing, the initial global burst, create_surface, init_gl,
    the synthetic first frame `redraw(&window, NULL, 0)`, then the event
    loop. `none` when create_surface aborts or blocks forever. -/
def mainRun (argv : List String) (evs : List Event) : Option ClientState :=
  let p := pumpGlobals (initialState argv) evs
  match create_surface p.1 p.2 with
  | none => none
  | some (s, rest) =>
    let s1 : ClientState := { s with window := init_gl s.window }
    some (runEvents (redraw s1 none 0) rest)

/-- The frames the trace renders: viewport and degree angle of each
    renderFrame action, in order. -/
def renderedFrames (tr : List Action) : List (Geometry × Nat) :=
  tr.filterMap fun a =>
    match a with
    | Action.renderFrame g ang => some (g, ang)
    | _ => none

/-- The end-to-end scenario script: compositor and shell announced, one
    configure(300, 200), one frame callback at time 100. -/
def scenarioEvents : List Event :=
  [Event.global "wl_compositor", Event.global "wl_shell",
   Event.configure 300 200, Event.frame 100]

/-- The end-to-end scenario run, in fullscreen mode. -/
def scenarioRun : Option ClientState := mainRun ["simple-egl", "-f"] scenarioEvents

/-- The frame-scheduler invariant: at most one outstanding next-frame
    request, pending exactly when a callback handle is stored. -/
def schedInv (s : ClientState) : Prop :=
  s.outstanding ≤ 1 ∧ (s.window.callback.isSome = true ↔ s.outstanding = 1)

/-- Positive window geometry. -/
def posGeom (w : Window) : Prop :=
  0 < w.geometry.width ∧ 0 < w.geometry.height

/-- Recognizer for the next-frame request action. -/
def isSurfaceFrame : Action → Bool
  | Action.surfaceFrame _ => true
  | _ => false

theorem dispatch_schedInv (s : ClientState) (e : Event) (h : schedInv s) :
    schedInv (dispatch s e) := by
  rcases h with ⟨h1, h2⟩
  cases e with
  | global i =>
      by_cases hk : knownInterface i = true <;>
        simp [dispatch, hk, schedInv, h1, h2]
  | configure wd ht =>
      simpa [dispatch, schedInv, handle_configure] using ⟨h1, h2⟩
  | ping serial =>
      simpa [dispatch, schedInv, handle_ping] using ⟨h1, h2⟩
  | frame t =>
      cases hc : s.window.callback with
      | none =>
          have hid : dispatch s (Event.frame t) = s := by simp [dispatch, hc]
          rw [hid]
          exact ⟨h1, h2⟩
      | some hcb =>
          have hone : s.outstanding = 1 := h2.mp (by simp [hc])
          simp [dispatch, hc, redraw, schedInv, hone]

theorem runStates_schedInv (evs : List Event) :
    ∀ s : ClientState, schedInv s → ∀ s' ∈ runStates s evs, schedInv s' := by
  induction evs with
  | nil =>
      intro s h s' hs'
      simp [runStates] at hs'
      exact hs' ▸ h
  | cons e rest ih =>
      intro s h s' hs'
      simp only [runStates, List.mem_cons] at hs'
      rcases hs' with rfl | hs'
      · exact h
      · exact ih (dispatch s e) (dispatch_schedInv s e h) s' hs'

/-- C2: starting from any state satisfying the scheduler invariant, every
    state the event loop passes through has at most one outstanding
    next-frame request; and whenever a frame callback fires, the handler
    releases the fired callback handle and exactly one new next-frame
    request is pending before it returns. -/
theorem C2_frame_scheduler (s : ClientState) (evs : List Event) (h : schedInv s) :
    (∀ s' ∈ runStates s evs, s'.outstanding ≤ 1) ∧
    (∀ (s' : ClientState) (hcb t : Nat), schedInv s' → s'.window.callback = some hcb →
      (dispatch s' (Event.frame t)).outstanding = 1 ∧
      (dispatch s' (Event.frame t)).window.callback = some s'.nextHandle ∧
      Action.destroyCallback hcb ∈ (dispatch s' (Event.frame t)).trace) := by
  constructor
  · intro s' hs'
    exact (runStates_schedInv evs s h s' hs').1
  · intro s' hcb t hinv hc
    have hone : s'.outstanding = 1 := hinv.2.mp (by simp [hc])
    refine ⟨?_, ?_, ?_⟩ <;> simp [dispatch, hc, redraw, hone]

/-- Witness for C2 at a concrete state and event list. -/
theorem C2_frame_scheduler_witness :
    schedInv (initialState ["simple-egl"]) ∧
    (∀ s' ∈ runStates (initialState ["simple-egl"]) [Event.frame 3],
      s'.outstanding ≤ 1) := by
  have hinv : schedInv (initialState ["simple-egl"]) := by
    unfold schedInv
    exact ⟨by decide, by decide⟩
  exact ⟨hinv, (C2_frame_scheduler (initialState ["simple-egl"]) [Event.frame 3] hinv).1⟩

/-- C9: the ping handler sends back exactly one pong carrying the same
    serial and changes nothing else in the client state. -/
theorem C9_ping_pong (s : ClientState) (serial : Nat) :
    (handle_ping s serial).trace = s.trace ++ [Action.pong serial] ∧
    (handle_ping s serial).display = s.display ∧
    (handle_ping s serial).window = s.window ∧
    (handle_ping s serial).outstanding = s.outstanding ∧
    (handle_ping s serial).nextHandle = s.nextHandle :=
  ⟨rfl, rfl, rfl, rfl, rfl⟩

/-- C10: start_time uses 0 as the unset sentinel: a redraw at time 0 from an
    unset start time leaves it unset and renders angle 0 (the synthetic
    first frame of main), the first redraw with a nonzero timestamp captures
    it, a redraw at timestamp 0 never changes the stored start time (so a
    genuine 0 timestamp is indistinguishable from the uninitialized state),
    and main starts every run with the start time unset. -/
theorem C10_start_time_sentinel (s : ClientState) (cb : Option Nat) (t : Nat)
    (h : s.window.start_time = 0) :
    (redraw s cb 0).window.start_time = 0 ∧
    renderedFrames (redraw s cb 0).trace
      = renderedFrames s.trace ++ [(s.window.viewport, 0)] ∧
    (t ≠ 0 → (redraw s cb t).window.start_time = t) ∧
    (∀ s' : ClientState, (redraw s' cb 0).window.start_time = s'.window.start_time) ∧
    (∀ argv : List String, (initialState argv).window.start_time = 0) := by
  have hang : redrawAngle 0 0 = 0 := by decide
  refine ⟨?_, ?_, ?_, ?_, ?_⟩
  · cases cb <;> simp [redraw, h]
  · cases cb <;>
      simp [redraw, h, hang, renderedFrames, List.filterMap_append]
  · intro ht
    cases cb <;> simp [redraw, h, ht]
  · intro s'
    by_cases h0 : s'.window.start_time = 0 <;> cases cb <;> simp [redraw, h0]
  · intro argv
    rfl

/-- Witness for C10 at a concrete state and nonzero timestamp. -/
theorem C10_start_time_sentinel_witness :
    (initialState ["simple-egl"]).window.start_time = 0 ∧ (7 : Nat) ≠ 0 ∧
    (redraw (initialState ["simple-egl"]) none 7).window.start_time = 7 :=
  ⟨by decide, by decide,
   (C10_start_time_sentinel (initialState ["simple-egl"]) none 7 (by decide)).2.2.1
     (by decide)⟩

/-- C5: the argument parsing does not implement "-f selects fullscreen".
    With the usual program name any extra argument selects fullscreen, even
    one that is not "-f"; no extra argument selects windowed; and a program
    invoked under the name "-f" never selects fullscreen, not even when the
    "-f" flag is passed. -/
theorem C5_flag_parsing :
    fullscreenOf ["simple-egl", "-x"] = true ∧
    fullscreenOf ["simple-egl", "-f"] = true ∧
    fullscreenOf ["simple-egl"] = false ∧
    fullscreenOf ["-f", "-f"] = false := by decide

theorem sub32_of_le (st t : Nat) (hle : st ≤ t) (hlt : t < WIDTH32) :
    sub32 t st = t - st := by
  unfold sub32
  have h1 : t % WIDTH32 = t := Nat.mod_eq_of_lt hlt
  have h2 : st % WIDTH32 = st := Nat.mod_eq_of_lt (lt_of_le_of_lt hle hlt)
  have h3 : t + WIDTH32 - st = t - st + WIDTH32 := by omega
  rw [h1, h2, h3, Nat.add_mod_right]
  exact Nat.mod_eq_of_lt (lt_of_le_of_lt (Nat.sub_le t st) hlt)

/-- C3 counterexample: with the start time captured as 100, the callback at
    timestamp 100 + 5 * SPEED_DIVISOR renders exactly 5 degrees, not
    (approximately) 1 degree as the claim states. -/
theorem C3_counterexample :
    redrawAngle 100 (100 + 5 * speed_div) = 5 ∧
    redrawAngle 100 (100 + 5 * speed_div) ≠ 1 := by decide

/-- C3 (amended): for a captured (nonzero) start time and a later timestamp
    in uint32 range, the rotation angle is ((t - start_time) / SPEED_DIVISOR)
    mod 360 degrees, lies in [0, 360), is 0 at zero elapsed time, advances by
    exactly one degree (mod 360) every SPEED_DIVISOR time units — hence is
    non-decreasing modulo wraparound — and wraps from 359 to 0; elapsed time
    SPEED_DIVISOR gives 1 degree while 5 * SPEED_DIVISOR gives 5 degrees. -/
theorem C3_rotation_angle (st t : Nat) (h0 : st ≠ 0) (hle : st ≤ t)
    (hlt : t < WIDTH32) :
    redrawAngle st t = (t - st) / speed_div % 360 ∧
    redrawAngle st t < 360 ∧
    (t = st → redrawAngle st t = 0) ∧
    (∀ e : Nat, angleDeg (e + speed_div) = (angleDeg e + 1) % 360) ∧
    (∀ e : Nat, angleDeg e = 359 → angleDeg (e + speed_div) = 0) ∧
    angleDeg speed_div = 1 ∧ angleDeg (5 * speed_div) = 5 := by
  have hsub : sub32 t st = t - st := sub32_of_le st t hle hlt
  have hstep : ∀ e : Nat, angleDeg (e + speed_div) = (angleDeg e + 1) % 360 := by
    intro e
    unfold angleDeg speed_div
    rw [Nat.add_div_right e (by norm_num), Nat.add_mod (e / 5) 1 360]
  refine ⟨?_, ?_, ?_, hstep, ?_, by decide, by decide⟩
  · rw [redrawAngle, hsub]; rfl
  · rw [redrawAngle, hsub]
    exact Nat.mod_lt _ (by norm_num)
  · intro heq
    subst heq
    rw [redrawAngle, hsub]
    simp [Nat.sub_self, angleDeg]
  · intro e he
    rw [hstep e, he]

/-- Witness for C3 at concrete start time 100 and timestamp 125. -/
theorem C3_rotation_angle_witness :
    (100 : Nat) ≠ 0 ∧ (100 : Nat) ≤ 125 ∧ (125 : Nat) < WIDTH32 ∧
    redrawAngle 100 125 = (125 - 100) / speed_div % 360 :=
  ⟨by decide, by decide, by decide,
   (C3_rotation_angle 100 125 (by decide) (by decide) (by decide)).1⟩

/-- C1 counterexample: in the end-to-end scenario (compositor and shell
    announced, one configure(300, 200), one frame callback at time 100) the
    frame rendered for the callback has rotation angle 0, not 20: the
    callback finds the start time still at its unset sentinel and captures
    start_time = 100, so the elapsed time is 0. No frame of the run is
    rendered with angle 20. -/
theorem C1_counterexample :
    scenarioRun.map (fun s => renderedFrames s.trace)
      = some [(⟨300, 200⟩, 0), (⟨300, 200⟩, 0)] ∧
    scenarioRun.map (fun s => (renderedFrames s.trace).countP (fun f => f.2 == 20))
      = some 0 := by decide

/-- C1 (amended): in the end-to-end scenario the program renders, for the
    frame callback at time 100, exactly one frame at viewport 300x200 with
    rotation angle ((100 - start_time) / 5) mod 360 = 0 degrees — the lazily
    captured start time being 100 — and re-arms exactly one new frame
    request before the handler returns (two frames in total: the synthetic
    startup frame and the callback frame, both at angle 0). -/
theorem C1_end_to_end :
    scenarioRun.map
        (fun s => (renderedFrames s.trace, s.window.start_time, s.outstanding,
                   s.window.viewport, s.trace.countP isSurfaceFrame))
      = some ([(⟨300, 200⟩, 0), (⟨300, 200⟩, 0)], 100, 1, ⟨300, 200⟩, 2) ∧
    redrawAngle 100 100 = 0 := by decide

theorem iterateLoop_some_configured (evs : List Event) :
    ∀ (s s' : ClientState) (rest : List Event),
      iterateLoop s evs = some (s', rest) → s'.window.configured = true := by
  induction evs with
  | nil =>
      intro s s' rest h
      unfold iterateLoop at h
      by_cases hc : s.window.configured = true
      · simp [hc] at h
        exact h.1 ▸ hc
      · simp [hc] at h
  | cons e tl ih =>
      intro s s' rest h
      unfold iterateLoop at h
      by_cases hc : s.window.configured = true
      · simp [hc] at h
        exact h.1 ▸ hc
      · simp [hc] at h
        exact ih (dispatch s e) s' rest h

theorem dispatch_configured_eq (s : ClientState) (e : Event)
    (hnc : ∀ wd ht, e ≠ Event.configure wd ht) :
    (dispatch s e).window.configured = s.window.configured := by
  cases e with
  | global i => by_cases hk : knownInterface i = true <;> simp [dispatch, hk]
  | configure wd ht => exact absurd rfl (hnc wd ht)
  | ping serial => simp [dispatch, handle_ping]
  | frame t =>
      cases hc : s.window.callback with
      | none => simp [dispatch, hc]
      | some hcb => simp [dispatch, hc, redraw]

theorem iterateLoop_none_of_no_configure (evs : List Event) :
    ∀ s : ClientState, s.window.configured = false →
      (∀ wd ht, Event.configure wd ht ∉ evs) →
      iterateLoop s evs = none := by
  induction evs with
  | nil =>
      intro s hc _
      unfold iterateLoop
      simp [hc]
  | cons e tl ih =>
      intro s hc hno
      have hne : ∀ wd ht, e ≠ Event.configure wd ht := by
        intro wd ht he
        exact hno wd ht (he ▸ List.mem_cons_self e tl)
      unfold iterateLoop
      simp [hc]
      exact ih (dispatch s e)
        ((dispatch_configured_eq s e hne).trans hc)
        (fun wd ht hmem => hno wd ht (List.mem_cons_of_mem e hmem))

/-- C4: in fullscreen mode create_surface reaches native-window creation
    only once configured has become true (whenever it returns, the returned
    state is configured with the native window created), and with no
    configure event among the deliverable events it blocks forever; in
    windowed mode it proceeds immediately to native-window creation with the
    caller-supplied geometry, consuming no transport events and leaving the
    configured flag untouched. -/
theorem C4_create_surface_wait (s : ClientState) (evs : List Event) :
    (s.window.fullscreen = true →
      (∀ s' rest, create_surface s evs = some (s', rest) →
        s'.window.configured = true ∧ s'.window.native.isSome = true) ∧
      ((∀ wd ht, Event.configure wd ht ∉ evs) → create_surface s evs = none)) ∧
    (s.window.fullscreen = false →
      ∀ c sh, s.display.compositor = some c → s.display.shell = some sh →
        (create_surface s evs).map
            (fun p => (p.2, p.1.window.nativeGeom, p.1.window.configured))
          = some (evs, some s.window.geometry, s.window.configured)) := by
  constructor
  · intro hf
    constructor
    · intro s' rest h
      unfold create_surface at h
      cases hcomp : s.display.compositor with
      | none => rw [hcomp] at h; simp at h
      | some c =>
        cases hshell : s.display.shell with
        | none => rw [hcomp, hshell] at h; simp at h
        | some sh =>
          rw [hcomp, hshell] at h
          simp only [hf] at h
          simp only [if_true] at h
          split at h
          · simp at h
          · rename_i s4 rest4 hit
            simp only [Option.some.injEq, Prod.mk.injEq] at h
            rcases h with ⟨h1, _⟩
            have hcfg := iterateLoop_some_configured evs _ s4 rest4 hit
            constructor
            · rw [← h1]
              simpa [finishSurface] using hcfg
            · rw [← h1]
              simp [finishSurface]
    · intro hno
      unfold create_surface
      cases hcomp : s.display.compositor with
      | none => simp
      | some c =>
        cases hshell : s.display.shell with
        | none => simp
        | some sh =>
          simp only [hf, if_true]
          rw [iterateLoop_none_of_no_configure evs _ (by simp) hno]
  · intro hf c sh hcomp hshell
    unfold create_surface
    rw [hcomp, hshell]
    simp [hf, finishSurface]

/-- Witness for C4: a concrete fullscreen state whose event script holds no
    configure event makes create_surface block (return none), and a concrete
    windowed state proceeds immediately with the caller geometry. -/
theorem C4_create_surface_wait_witness :
    ({ display := { compositor := some 0, shell := some 1 },
       window := { geometry := ⟨250, 250⟩, fullscreen := true } } :
        ClientState).window.fullscreen = true ∧
    create_surface
        { display := { compositor := some 0, shell := some 1 },
          window := { geometry := ⟨250, 250⟩, fullscreen := true } }
        [Event.ping 7] = none := by
  refine ⟨by decide, ?_⟩
  have hno : ∀ wd ht, Event.configure wd ht ∉ ([Event.ping 7] : List Event) := by
    intro wd ht hmem
    simp at hmem
  exact ((C4_create_surface_wait
      { display := { compositor := some 0, shell := some 1 },
        window := { geometry := ⟨250, 250⟩, fullscreen := true } }
      [Event.ping 7]).1 (by decide)).2 hno

/-- C6: destroy_surface releases the native drawable, the shell-surface
    handle and the surface handle, in that order, then the outstanding
    frame-callback handle — a no-op when no callback is outstanding; the
    teardown in main afterwards releases the shell and the compositor only
    if each was bound, and does nothing for one that was never announced. -/
theorem C6_teardown_order (s : ClientState) :
    (destroy_surface s).trace
      = s.trace
          ++ [Action.destroyNative, Action.destroyShellSurface, Action.destroySurface]
          ++ (match s.window.callback with
              | some h => [Action.destroyCallback h]
              | none => []) ∧
    (s.window.callback = none →
      (destroy_surface s).trace
        = s.trace
            ++ [Action.destroyNative, Action.destroyShellSurface, Action.destroySurface]) ∧
    (main_teardown s).trace
      = (destroy_surface s).trace
          ++ (match s.display.shell with
              | some _ => [Action.destroyShell]
              | none => [])
          ++ (match s.display.compositor with
              | some _ => [Action.destroyCompositor]
              | none => []) ∧
    (s.display.shell = none → s.display.compositor = none →
      (main_teardown s).trace = (destroy_surface s).trace) := by
  refine ⟨?_, ?_, ?_, ?_⟩
  · cases hc : s.window.callback <;> simp [destroy_surface, hc]
  · intro hc
    simp [destroy_surface, hc]
  · cases hsh : s.display.shell <;> cases hcp : s.display.compositor <;>
      cases hc : s.window.callback <;>
      simp [main_teardown, destroy_surface, hsh, hcp, hc]
  · intro hsh hcp
    cases hc : s.window.callback <;>
      simp [main_teardown, destroy_surface, hsh, hcp, hc]

/-- Witness for C6 at the zero-initialized state: no callback outstanding
    and no capability bound, so no callback, shell or compositor release is
    emitted. -/
theorem C6_teardown_order_witness :
    ({} : ClientState).window.callback = none ∧
    ({} : ClientState).display.shell = none ∧
    ({} : ClientState).display.compositor = none ∧
    (destroy_surface {}).trace
      = [Action.destroyNative, Action.destroyShellSurface, Action.destroySurface] ∧
    (main_teardown {}).trace = (destroy_surface {}).trace := by
  refine ⟨by decide, by decide, by decide, ?_, ?_⟩
  · have h := (C6_teardown_order {}).2.1 (by decide)
    simpa using h
  · exact (C6_teardown_order {}).2.2.2 (by decide) (by decide)

/-- C7: the registry handler binds and stores a handle exactly for the three
    known interface names (compositor, shell, input device), leaves the
    state unchanged for every other interface name, and a second
    announcement of the same name replaces the stored handle with the newly
    bound one (last bind wins). -/
theorem C7_registry_bind (d : Display) (i : String) (h1 h2 : Nat) :
    display_handle_global d "wl_compositor" h1 = { d with compositor := some h1 } ∧
    display_handle_global d "wl_shell" h1 = { d with shell := some h1 } ∧
    display_handle_global d "wl_input_device" h1 = { d with input := some h1 } ∧
    (i ≠ "wl_compositor" → i ≠ "wl_shell" → i ≠ "wl_input_device" →
      display_handle_global d i h1 = d) ∧
    (display_handle_global
        (display_handle_global d "wl_compositor" h1) "wl_compositor" h2).compositor
      = some h2 ∧
    (display_handle_global
        (display_handle_global d "wl_shell" h1) "wl_shell" h2).shell
      = some h2 ∧
    (display_handle_global
        (display_handle_global d "wl_input_device" h1) "wl_input_device" h2).input
      = some h2 := by
  refine ⟨?_, ?_, ?_, ?_, ?_, ?_, ?_⟩
  · simp [display_handle_global]
  · simp [display_handle_global]
  · simp [display_handle_global]
  · intro hn1 hn2 hn3
    simp [display_handle_global, hn1, hn2, hn3]
  · simp [display_handle_global]
  · simp [display_handle_global]
  · simp [display_handle_global]

/-- Witness for C7: the unknown interface "wl_output" is ignored, and a
    second announcement of "wl_shell" replaces the stored handle. -/
theorem C7_registry_bind_witness :
    ("wl_output" : String) ≠ "wl_compositor" ∧
    display_handle_global {} "wl_output" 5 = ({} : Display) ∧
    (display_handle_global
        (display_handle_global {} "wl_shell" 1) "wl_shell" 2).shell = some 2 :=
  ⟨by decide,
   (C7_registry_bind {} "wl_output" 5 0).2.2.2.1 (by decide) (by decide) (by decide),
   (C7_registry_bind {} "wl_output" 1 2).2.2.2.2.2.1⟩

/-- C8 counterexample: the configure handler stores the server-supplied size
    unchecked, so a reachable run receiving configure(0, 0) ends in a state
    whose geometry is 0x0 — not positive. -/
theorem C8_counterexample :
    (mainRun ["simple-egl"]
        [Event.global "wl_compositor", Event.global "wl_shell",
         Event.configure 0 0]).map (fun s => s.window.geometry)
      = some ⟨0, 0⟩ ∧ ¬(0 < (0 : Int)) := by decide

theorem redraw_geometry_eq (s : ClientState) (cb : Option Nat) (t : Nat) :
    (redraw s cb t).window.geometry = s.window.geometry := by
  cases cb <;> simp [redraw]

theorem dispatch_posGeom (s : ClientState) (e : Event)
    (hs : posGeom s.window)
    (he : ∀ wd ht, e = Event.configure wd ht → 0 < wd ∧ 0 < ht) :
    posGeom (dispatch s e).window := by
  cases e with
  | global i =>
      by_cases hk : knownInterface i = true <;> simp [dispatch, hk] <;> exact hs
  | configure wd ht =>
      have := he wd ht rfl
      simp [dispatch, handle_configure, posGeom]
      exact this
  | ping serial =>
      simpa [dispatch, handle_ping] using hs
  | frame t =>
      cases hc : s.window.callback with
      | none => simpa [dispatch, hc] using hs
      | some hcb =>
          unfold posGeom
          rw [dispatch]
          simp only [hc]
          rw [redraw_geometry_eq]
          exact hs

/-- C8 (amended): the geometry starts positive (250x250 in main) and stays
    positive in every reachable state provided every configure event carries
    a positive width and height; unconditionally, every configure event
    overwrites the stored geometry with the server-supplied size and sets
    the configured flag. The code itself does not validate the size, so the
    positivity invariant is conditional on the server. -/
theorem C8_geometry_invariant (s : ClientState) (evs : List Event)
    (hs : posGeom s.window)
    (hevs : ∀ wd ht, Event.configure wd ht ∈ evs → 0 < wd ∧ 0 < ht) :
    posGeom (runEvents s evs).window ∧
    (∀ argv : List String, posGeom (initialState argv).window) ∧
    (∀ (s' : ClientState) (wd ht : Int),
      (dispatch s' (Event.configure wd ht)).window.geometry = ⟨wd, ht⟩ ∧
      (dispatch s' (Event.configure wd ht)).window.configured = true) := by
  refine ⟨?_, ?_, ?_⟩
  · induction evs generalizing s with
    | nil => exact hs
    | cons e tl ih =>
        have he : ∀ wd ht, e = Event.configure wd ht → 0 < wd ∧ 0 < ht := by
          intro wd ht hwd
          exact hevs wd ht (hwd ▸ List.mem_cons_self e tl)
        exact ih (dispatch s e) (dispatch_posGeom s e hs he)
          (fun wd ht hmem => hevs wd ht (List.mem_cons_of_mem e hmem))
  · intro argv
    exact ⟨by norm_num [initialState], by norm_num [initialState]⟩
  · intro s' wd ht
    exact ⟨by simp [dispatch, handle_configure], by simp [dispatch, handle_configure]⟩

/-- Witness for C8 at the initial state of main and a positive configure. -/
theorem C8_geometry_invariant_witness :
    posGeom (initialState ["simple-egl"]).window ∧
    (∀ wd ht, Event.configure wd ht ∈ ([Event.configure 300 200] : List Event) →
      0 < wd ∧ 0 < ht) ∧
    posGeom (runEvents (initialState ["simple-egl"])
      [Event.configure 300 200]).window := by
  have hs : posGeom (initialState ["simple-egl"]).window :=
    ⟨by norm_num [initialState], by norm_num [initialState]⟩
  have hevs : ∀ wd ht,
      Event.configure wd ht ∈ ([Event.configure 300 200] : List Event) →
      0 < wd ∧ 0 < ht := by
    intro wd ht hmem
    simp at hmem
    omega
  exact ⟨hs, hevs,
    (C8_geometry_invariant (initialState ["simple-egl"])
      [Event.configure 300 200] hs hevs).1⟩

end SimpleEgl
